import Mathlib

/-!
Shallow embedding of `sushichef.py` from the Stanford Digital Medic sushi chef.

The script scrapes two brandfolder pages (an English collection and a
multi-language slideshow collection), fetches asset metadata per section from
the brandfolder API, and assembles a channel tree of topic, video, slideshow
and document nodes.

External effects are modelled explicitly:
  * `downloader.read` on JSON endpoints becomes the environment functions
    `fetchAssets` (asset listing of a URL) and `fetchVideo` (the parsed
    attachment data for `FILE_STORAGE_URL`);
  * `sys.argv` membership of the `--slides` flag becomes `slidesMode`;
  * `os.path.exists` becomes `fsExists`;
  * `hashlib.md5(..).hexdigest()` becomes the abstract `md5hex` over the
    UTF-8 bytes of its input;
  * `languages.getlang(code).native_name` becomes `nativeName`;
  * the two BeautifulSoup page scrapes yield `englishSections`,
    `englishCollectionKey` and `multilangSections` (the parsed
    `data-react-props` sections of each page).
Every run of a scraping function returns, alongside the nodes it adds, the
ordered trace of URLs passed to `downloader.read` and the warnings logged.
Python runtime errors (IndexError on an empty list, KeyError on a dict)
are modelled with `Except`.
-/

set_option autoImplicit false

namespace StanfordDigitalMedic

/-- Folder to store pdfs of images (`DOCUMENT_DOWNLOAD_DIR = 'documents'`). -/
def DOCUMENT_DOWNLOAD_DIR : String := "documents"

/-- `os.path.sep` on the POSIX platforms the chef runs on. -/
def PATH_SEP : String := "/"

/-- `ENGLISH_COLLECTION_URL`. -/
def ENGLISH_COLLECTION_URL : String := "https://brandfolder.com/digitalmedic/covid-19"

/-- `ENGLISH_ASSETS_URL.format(collection=..., section=...)`. -/
def ENGLISH_ASSETS_URL (collection sectionKey : String) : String :=
  "https://brandfolder.com/api/v4/collections/" ++ collection ++ "/sections/" ++ sectionKey
    ++ "/assets?sort_by=position&order=ASC&search=&fast_jsonapi=true"

/-- `EXCLUDED_TOPIC_IDS = [262354, 261412]`. -/
def EXCLUDED_TOPIC_IDS : List Int := [262354, 261412]

/-- `FILE_STORAGE_URL.format(id=...)`. -/
def FILE_STORAGE_URL (id : String) : String :=
  "https://brandfolder.com/api/v4/assets/" ++ id ++ "/attachments?fields=url,thumbnail_url"

/-- `SLIDESHOWS_URL`. -/
def SLIDESHOWS_URL : String := "https://brandfolder.com/digitalmedic/covid-19-multiple-languages"

/-- `SLIDESHOW_ASSETS_URL.format(collection=..., section=...)`. -/
def SLIDESHOW_ASSETS_URL (collection sectionKey : String) : String :=
  "https://brandfolder.com/api/v4/collections/" ++ collection ++ "/sections/" ++ sectionKey
    ++ "/assets?sort_by=position&order=ASC&strict_search=false&fast_jsonapi=true"

/-- The `LANGUAGE_MAP` dict: language name to language code, `none` models
the Python value `None` (for Tetun). -/
def LANGUAGE_MAP : List (String × Option String) :=
  [ ("Afrikaans", some "af"),
    ("Arabic", some "ar"),
    ("English", some "en"),
    ("French", some "fr"),
    ("Hindi", some "hi"),
    ("isiXhosa", some "xh"),
    ("isiZulu", some "zul"),
    ("Kiswahili", some "sw"),
    ("Mandarin Chinese - simple", some "zh-CN"),
    ("Mandarin Chinese - Traditional", some "zh-Hant"),
    ("Portuguese", some "pt"),
    ("Setswana", some "tn"),
    ("Spanish", some "es"),
    ("Tetun", none) ]

/-- Helper for `pyReplace`: scan the text left to right; a `Nat.succ`
second argument means that many characters are still being skipped because
they belonged to an occurrence that was just replaced. -/
def replaceGo (pat rep : List Char) : List Char → Nat → List Char
  | [], _ => []
  | _ :: cs, Nat.succ k => replaceGo pat rep cs k
  | c :: cs, 0 =>
    if !pat.isEmpty && pat.isPrefixOf (c :: cs) then
      rep ++ replaceGo pat rep cs (pat.length - 1)
    else
      c :: replaceGo pat rep cs 0

/-- Python `s.replace(pattern, replacement)`: replace every non-overlapping
occurrence, scanning left to right. (A structurally recursive model of the
library routine, so that concrete runs reduce inside the kernel.) -/
def pyReplace (s pattern replacement : String) : String :=
  String.mk (replaceGo pattern.data replacement.data s.data 0)

/-- The `attributes` object of an asset as returned by the brandfolder API. -/
structure AssetAttributes where
  extension : String
  thumbnail_url : String
  name : String
deriving DecidableEq, Repr

/-- One asset of the per-section asset listing (`data` array entries). -/
structure Asset where
  id : String
  attributes : AssetAttributes
deriving DecidableEq, Repr

/-- `data[0]['attributes']` of a `FILE_STORAGE_URL` response. -/
structure VideoAttrs where
  url : String
  thumbnail_url : String
deriving DecidableEq, Repr

/-- An entry of the `images` list handed to `create_slideshow`:
a dict with a `url` key and an optional `caption` key. -/
structure ImageDict where
  url : String
  caption : Option String
deriving DecidableEq, Repr

/-- A section parsed out of a collection page's `data-react-props`
(`id`, `section_key` and `name` are the keys the chef reads). -/
structure PageSection where
  id : Int
  section_key : String
  name : String
deriving DecidableEq, Repr

/-- The ricecooker file objects the chef constructs. -/
inductive ContentFile where
  | thumbnail (url : String)
  | slideImage (url : String) (caption : String)
  | videoFile (url : String)
  | documentFile (path : String)
deriving DecidableEq, Repr

/-- The ricecooker nodes the chef constructs. The `license` argument is the
constant `LICENSE` at every construction site and is omitted. A `language`
value `some c` models `language=c`, with `c = none` for Python `None`. -/
inductive ContentNode where
  | topic (source_id : String) (title : String) (children : List ContentNode)
  | video (source_id : String) (title : String) (files : List ContentFile)
  | slideshow (source_id : String) (title : String) (language : Option String)
      (files : List ContentFile)
  | document (source_id : String) (title : String) (language : Option String)
      (files : List ContentFile)

/-- `source_id` of a node. -/
def ContentNode.sourceId : ContentNode → String
  | .topic s _ _ => s
  | .video s _ _ => s
  | .slideshow s _ _ _ => s
  | .document s _ _ _ => s

/-- `title` of a node. -/
def ContentNode.title : ContentNode → String
  | .topic _ t _ => t
  | .video _ t _ => t
  | .slideshow _ t _ _ => t
  | .document _ t _ _ => t

/-- The `language` field of a node: `some code` for the node kinds that are
built with one (slideshow and document), `none` for the others. -/
def ContentNode.language : ContentNode → Option (Option String)
  | .topic _ _ _ => none
  | .video _ _ _ => none
  | .slideshow _ _ c _ => some c
  | .document _ _ c _ => some c

-- Nesting depth of a node: a leaf counts 1, a topic is one more than the
-- deepest child.
mutual

def ContentNode.depth : ContentNode → Nat
  | .topic _ _ children => 1 + ContentNode.depthList children
  | .video _ _ _ => 1
  | .slideshow _ _ _ _ => 1
  | .document _ _ _ _ => 1

def ContentNode.depthList : List ContentNode → Nat
  | [] => 0
  | c :: cs => max (ContentNode.depth c) (ContentNode.depthList cs)

end

/-- Python runtime errors the script can raise. -/
inductive ChefError where
  /-- `images[0]` (or `image_list[0]`) on an empty list. -/
  | emptyImages
  /-- `video_data['data'][0]` when the attachments response is empty. -/
  | videoMissing
  /-- `LANGUAGE_MAP[name]` for a name that is not a key of the dict. -/
  | unknownLanguage
deriving DecidableEq, Repr

/-- The ambient effects of one chef run. -/
structure ScrapeEnv where
  /-- whether `--slides` is in `sys.argv` -/
  slidesMode : Bool
  /-- `os.path.exists` -/
  fsExists : String → Bool
  /-- `hashlib.md5(s.encode('utf-8')).hexdigest()`: the hex digest of the
  MD5 hash of the UTF-8 encoding of the argument -/
  md5hex : String → String
  /-- parsed `data` of `downloader.read` on an asset-listing URL -/
  fetchAssets : String → List Asset
  /-- parsed `data[..]['attributes']` of `downloader.read` on a `FILE_STORAGE_URL` -/
  fetchVideo : String → List VideoAttrs
  /-- `get_collection_key` result for the English collection page -/
  englishCollectionKey : String
  /-- parsed `sections` of the English collection page -/
  englishSections : List PageSection
  /-- parsed `sections` of the multi-language page -/
  multilangSections : List PageSection
  /-- `languages.getlang(code).native_name` -/
  nativeName : String → String

/-- Result of `create_slideshow`: the node returned, the URLs downloaded
(`downloader.read` on image URLs), and the PDF files written, each with the
ordered list of image URLs flattened into it. -/
structure SlideshowResult where
  node : ContentNode
  downloads : List String
  wrote : List (String × List String)

/-- The PDF path computed inside `create_slideshow`:
`'{}{}{}.pdf'.format(DOCUMENT_DOWNLOAD_DIR, os.path.sep, md5(source_id.encode('utf-8')).hexdigest())`. -/
def pdfPath (env : ScrapeEnv) (source_id : String) : String :=
  DOCUMENT_DOWNLOAD_DIR ++ PATH_SEP ++ env.md5hex source_id ++ ".pdf"

/-- `create_slideshow(images, source_id, title, language_name)`. -/
def create_slideshow (env : ScrapeEnv) (images : List ImageDict)
    (source_id title language_name : String) : Except ChefError SlideshowResult :=
  match images with
  | [] => .error .emptyImages
  | img0 :: _ =>
    let thumbnailFile := ContentFile.thumbnail img0.url
    if env.slidesMode then
      let slides := images.map fun image =>
        ContentFile.slideImage image.url (image.caption.getD "")
      match LANGUAGE_MAP.lookup language_name with
      | none => .error .unknownLanguage
      | some code =>
        .ok { node := .slideshow source_id title code (thumbnailFile :: slides),
              downloads := [], wrote := [] }
    else
      let path := pdfPath env source_id
      let effects : List String × List (String × List String) :=
        if env.fsExists path then ([], [])
        else (images.map (fun i => i.url), [(path, images.map (fun i => i.url))])
      match LANGUAGE_MAP.lookup language_name with
      | none => .error .unknownLanguage
      | some code =>
        .ok { node := .document source_id title code [thumbnailFile, .documentFile path],
              downloads := effects.1, wrote := effects.2 }

/-- Output of one scraping function: the nodes it adds to its parent, the
ordered `downloader.read` trace, and the warnings logged. -/
structure ScrapeResult where
  children : List ContentNode
  requests : List String
  warnings : List String

/-- Accumulated state of the asset loop inside `scrape_collection_files`. -/
structure ScrapeState where
  images : List ImageDict
  children : List ContentNode
  requests : List String
  warnings : List String

/-- The asset loop of `scrape_collection_files`, processing the `data` array
in order: `png` assets are collected into `images`, `mp4` assets trigger a
`FILE_STORAGE_URL` request and become `VideoNode` children, anything else
logs a warning. -/
def processAssets (env : ScrapeEnv) (url : String) :
    List Asset → Except ChefError ScrapeState
  | [] => .ok { images := [], children := [], requests := [], warnings := [] }
  | asset :: rest =>
    if asset.attributes.extension == "png" then
      (processAssets env url rest).map fun s =>
        { s with images :=
            { url := pyReplace asset.attributes.thumbnail_url "element.png" "view@2x.png",
              caption := some asset.attributes.name } :: s.images }
    else if asset.attributes.extension == "mp4" then
      let vurl := FILE_STORAGE_URL asset.id
      match env.fetchVideo vurl with
      | [] => .error .videoMissing
      | video :: _ =>
        (processAssets env url rest).map fun s =>
          { s with
            children := ContentNode.video video.url asset.attributes.name
                [ContentFile.videoFile video.url, ContentFile.thumbnail video.thumbnail_url]
              :: s.children,
            requests := vurl :: s.requests }
    else
      (processAssets env url rest).map fun s =>
        { s with warnings :=
            ("Unable to add " ++ asset.attributes.extension ++ " from " ++ url) :: s.warnings }

/-- `scrape_collection_files(topic, url)`: one `downloader.read` of `url`,
the asset loop, then — when any `png` images were collected — one slideshow
child built by `create_slideshow(images, url, topic.title, 'English')`. -/
def scrape_collection_files (env : ScrapeEnv) (topicTitle url : String) :
    Except ChefError ScrapeResult :=
  match processAssets env url (env.fetchAssets url) with
  | .error e => .error e
  | .ok s =>
    if s.images.isEmpty then
      .ok { children := s.children, requests := url :: s.requests, warnings := s.warnings }
    else
      match create_slideshow env s.images url topicTitle "English" with
      | .error e => .error e
      | .ok r =>
        .ok { children := s.children ++ [r.node],
              requests := url :: s.requests ++ r.downloads,
              warnings := s.warnings }

/-- The `for topic in topic_list` loop of `scrape_english_collection`: each
section becomes a `TopicNode(source_id=section_key, title=name)` whose
children come from `scrape_collection_files` on the section's assets URL. -/
def scrapeEnglishTopics (env : ScrapeEnv) :
    List PageSection → Except ChefError ScrapeResult
  | [] => .ok { children := [], requests := [], warnings := [] }
  | topic :: rest =>
    let url := ENGLISH_ASSETS_URL env.englishCollectionKey topic.section_key
    match scrape_collection_files env topic.name url with
    | .error e => .error e
    | .ok r =>
      (scrapeEnglishTopics env rest).map fun s =>
        { children := ContentNode.topic topic.section_key topic.name r.children :: s.children,
          requests := r.requests ++ s.requests,
          warnings := r.warnings ++ s.warnings }

/-- The filter of the `topic_list` comprehension:
`t['id'] not in EXCLUDED_TOPIC_IDS`. -/
def notExcluded (t : PageSection) : Bool :=
  !(EXCLUDED_TOPIC_IDS.contains t.id)

/-- `scrape_english_collection(channel)`: read the collection page, filter
out the sections in `EXCLUDED_TOPIC_IDS`, and loop over the remainder. -/
def scrape_english_collection (env : ScrapeEnv) : Except ChefError ScrapeResult :=
  let topic_list := env.englishSections.filter notExcluded
  match scrapeEnglishTopics env topic_list with
  | .error e => .error e
  | .ok s => .ok { s with requests := ENGLISH_COLLECTION_URL :: s.requests }

/-- One iteration of the `for language in language_list` loop of
`scrape_multilanguage_slideshows`: the section's assets URL (with the
hard-coded collection `qac6i4-foozd4-68u325`) is read, the language name is
translated through `LANGUAGE_MAP` (native name when the code is non-null,
the section's own name otherwise), and a non-empty slide list becomes one
`create_slideshow` child of the channel. Returns the children added and the
`downloader.read` trace of the iteration. -/
def languageStep (env : ScrapeEnv) (language : PageSection) :
    Except ChefError (List ContentNode × List String) :=
  let asset_url := SLIDESHOW_ASSETS_URL "qac6i4-foozd4-68u325" language.section_key
  let slide_data := env.fetchAssets asset_url
  match LANGUAGE_MAP.lookup language.name with
  | none => .error .unknownLanguage
  | some code =>
    let translated_name := match code with
      | some c => env.nativeName c
      | none => language.name
    let slides := slide_data.map fun slide =>
      ({ url := pyReplace slide.attributes.thumbnail_url "element.png" "view@2x.png",
         caption := none } : ImageDict)
    if slides.isEmpty then .ok ([], [asset_url])
    else
      match create_slideshow env slides asset_url translated_name language.name with
      | .error e => .error e
      | .ok r => .ok ([r.node], asset_url :: r.downloads)

/-- The `for language in language_list` loop: run `languageStep` on every
section in order, concatenating children and request traces. -/
def scrapeLanguages (env : ScrapeEnv) :
    List PageSection → Except ChefError ScrapeResult
  | [] => .ok { children := [], requests := [], warnings := [] }
  | language :: rest =>
    match languageStep env language with
    | .error e => .error e
    | .ok p =>
      (scrapeLanguages env rest).map fun s =>
        { children := p.1 ++ s.children,
          requests := p.2 ++ s.requests,
          warnings := s.warnings }

/-- `scrape_multilanguage_slideshows(channel)`: read the multi-language page,
then loop over its sections. -/
def scrape_multilanguage_slideshows (env : ScrapeEnv) : Except ChefError ScrapeResult :=
  match scrapeLanguages env env.multilangSections with
  | .error e => .error e
  | .ok s => .ok { s with requests := SLIDESHOWS_URL :: s.requests }

/-- `StanfordDigitalMedicChef.construct_channel`: the channel's children are
the English topics followed by the multi-language slideshows. -/
def construct_channel (env : ScrapeEnv) : Except ChefError ScrapeResult :=
  match scrape_english_collection env with
  | .error e => .error e
  | .ok english =>
    match scrape_multilanguage_slideshows env with
    | .error e => .error e
    | .ok multi =>
      .ok { children := english.children ++ multi.children,
            requests := english.requests ++ multi.requests,
            warnings := english.warnings ++ multi.warnings }

/-! ## Derived descriptions of the scraper output

The definitions below repackage pieces of the functions above so that the
theorems can describe one asset (or one section) at a time. Each is a direct
projection of the corresponding branch of the source functions. -/

/-- The image dict a `png` asset is collected as: its thumbnail URL with
`element.png` rewritten to `view@2x.png`, and its name as caption. -/
def pngImage (asset : Asset) : ImageDict :=
  { url := pyReplace asset.attributes.thumbnail_url "element.png" "view@2x.png",
    caption := some asset.attributes.name }

/-- The `VideoNode` built for an `mp4` asset from the first attachment. -/
def mkVideoNode (asset : Asset) (video : VideoAttrs) : ContentNode :=
  ContentNode.video video.url asset.attributes.name
    [ContentFile.videoFile video.url, ContentFile.thumbnail video.thumbnail_url]

/-- The contribution of one asset to the topic's video children: an `mp4`
asset yields the video node of its first attachment, anything else yields
nothing. -/
def mp4Child (env : ScrapeEnv) (asset : Asset) : Option ContentNode :=
  if asset.attributes.extension == "mp4" then
    (env.fetchVideo (FILE_STORAGE_URL asset.id)).head?.map (mkVideoNode asset)
  else none

/-- The warning `scrape_collection_files` logs for an unhandled extension. -/
def warnMsg (asset : Asset) (url : String) : String :=
  "Unable to add " ++ asset.attributes.extension ++ " from " ++ url

/-- An extension that is neither `png` nor `mp4`. -/
def isOtherExt (asset : Asset) : Bool :=
  !(asset.attributes.extension == "png") && !(asset.attributes.extension == "mp4")

/-- The `images` list `scrape_collection_files` collects for a URL. -/
def collectedImages (env : ScrapeEnv) (url : String) : List ImageDict :=
  ((env.fetchAssets url).filter fun a => a.attributes.extension == "png").map pngImage

/-- The slideshow child `scrape_collection_files` appends, with its
downloads: nothing when no image was collected, otherwise the output of
`create_slideshow(images, url, title, 'English')`. -/
def englishSlideshow (env : ScrapeEnv) (images : List ImageDict) (url title : String) :
    List ContentNode × List String :=
  if images.isEmpty then ([], [])
  else
    match create_slideshow env images url title "English" with
    | .ok r => ([r.node], r.downloads)
    | .error _ => ([], [])

/-- The children of the topic node built for an English section. -/
def englishTopicChildren (env : ScrapeEnv) (topic : PageSection) : List ContentNode :=
  match scrape_collection_files env topic.name
      (ENGLISH_ASSETS_URL env.englishCollectionKey topic.section_key) with
  | .ok r => r.children
  | .error _ => []

/-- The `downloader.read` trace of one English section's scrape. -/
def englishTopicRequests (env : ScrapeEnv) (topic : PageSection) : List String :=
  match scrape_collection_files env topic.name
      (ENGLISH_ASSETS_URL env.englishCollectionKey topic.section_key) with
  | .ok r => r.requests
  | .error _ => []

/-- The contribution of one multi-language section: the channel children it
adds and the `downloader.read` trace it produces (empty on a failing step). -/
def languageOutput (env : ScrapeEnv) (language : PageSection) :
    List ContentNode × List String :=
  match languageStep env language with
  | .ok p => p
  | .error _ => ([], [])

/-- The `translated_name` expression of `scrape_multilanguage_slideshows`
for a section whose `LANGUAGE_MAP` entry is `code`: the native name of the
mapped language code when the code is non-null, the section's own name
otherwise. -/
def translatedName (env : ScrapeEnv) (l : PageSection) (code : Option String) : String :=
  match code with
  | some c => env.nativeName c
  | none => l.name

/-- Whether a run aborted with the `IndexError` of `images[0]` on an empty
image list. -/
def isEmptyImagesError (r : Except ChefError ScrapeResult) : Bool :=
  match r with
  | .error .emptyImages => true
  | _ => false

/-! ## Characterisation lemmas -/

theorem processAssets_ok (env : ScrapeEnv) (url : String) :
    ∀ (assets : List Asset) (s : ScrapeState), processAssets env url assets = .ok s →
      s.images = ((assets.filter fun a => a.attributes.extension == "png").map pngImage) ∧
      s.children = assets.filterMap (mp4Child env) ∧
      s.requests = ((assets.filter fun a => a.attributes.extension == "mp4").map
        fun a => FILE_STORAGE_URL a.id) ∧
      s.warnings = ((assets.filter isOtherExt).map fun a => warnMsg a url) := by
  intro assets
  induction assets with
  | nil =>
    intro s h
    simp only [processAssets, Except.ok.injEq] at h
    subst h
    simp
  | cons a rest ih =>
    intro s h
    cases hpng : a.attributes.extension == "png" with
    | true =>
      have hext : a.attributes.extension = "png" := beq_iff_eq.mp hpng
      simp only [processAssets, hpng, if_pos] at h
      cases hrec : processAssets env url rest with
      | error e => rw [hrec] at h; simp [Except.map] at h
      | ok s' =>
        rw [hrec] at h
        simp only [Except.map, Except.ok.injEq] at h
        subst h
        obtain ⟨h1, h2, h3, h4⟩ := ih s' hrec
        refine ⟨?_, ?_, ?_, ?_⟩
        · simp [List.filter_cons, hpng, pngImage, h1]
        · simp [List.filterMap_cons, mp4Child, hext, h2]
        · simp [List.filter_cons, hext, h3]
        · simp [List.filter_cons, isOtherExt, hext, h4]
    | false =>
      cases hmp4 : a.attributes.extension == "mp4" with
      | true =>
        have hext : a.attributes.extension = "mp4" := beq_iff_eq.mp hmp4
        simp only [processAssets, hpng, hmp4, Bool.false_eq_true, if_neg, if_pos,
          reduceIte] at h
        cases hv : env.fetchVideo (FILE_STORAGE_URL a.id) with
        | nil => rw [hv] at h; simp at h
        | cons v vs =>
          rw [hv] at h
          cases hrec : processAssets env url rest with
          | error e => rw [hrec] at h; simp [Except.map] at h
          | ok s' =>
            rw [hrec] at h
            simp only [Except.map, Except.ok.injEq] at h
            subst h
            obtain ⟨h1, h2, h3, h4⟩ := ih s' hrec
            refine ⟨?_, ?_, ?_, ?_⟩
            · simp [List.filter_cons, hpng, h1]
            · simp [List.filterMap_cons, mp4Child, hmp4, hv, mkVideoNode, h2]
            · simp [List.filter_cons, hmp4, h3]
            · simp [List.filter_cons, isOtherExt, hext, h4]
      | false =>
        simp only [processAssets, hpng, hmp4, Bool.false_eq_true, if_neg, reduceIte] at h
        cases hrec : processAssets env url rest with
        | error e => rw [hrec] at h; simp [Except.map] at h
        | ok s' =>
          rw [hrec] at h
          simp only [Except.map, Except.ok.injEq] at h
          subst h
          obtain ⟨h1, h2, h3, h4⟩ := ih s' hrec
          refine ⟨?_, ?_, ?_, ?_⟩
          · simp [List.filter_cons, hpng, h1]
          · simp [List.filterMap_cons, mp4Child, hmp4, h2]
          · simp [List.filter_cons, hmp4, h3]
          · simp [List.filter_cons, isOtherExt, hpng, hmp4, warnMsg, h4]

theorem scrape_collection_files_ok (env : ScrapeEnv) (topicTitle url : String)
    (r : ScrapeResult) (h : scrape_collection_files env topicTitle url = .ok r) :
    r.children = (env.fetchAssets url).filterMap (mp4Child env)
        ++ (englishSlideshow env (collectedImages env url) url topicTitle).1 ∧
    r.requests = url :: (((env.fetchAssets url).filter fun a => a.attributes.extension == "mp4").map
        fun a => FILE_STORAGE_URL a.id)
        ++ (englishSlideshow env (collectedImages env url) url topicTitle).2 ∧
    r.warnings = ((env.fetchAssets url).filter isOtherExt).map fun a => warnMsg a url := by
  unfold scrape_collection_files at h
  cases hp : processAssets env url (env.fetchAssets url) with
  | error e => rw [hp] at h; exact absurd h (by simp)
  | ok s =>
    rw [hp] at h
    obtain ⟨h1, h2, h3, h4⟩ := processAssets_ok env url _ s hp
    have hci : collectedImages env url = s.images := by rw [collectedImages, ← h1]
    rw [hci]
    cases himg : s.images.isEmpty with
    | true =>
      simp only [himg, reduceIte, Except.ok.injEq] at h
      subst h
      rw [englishSlideshow, himg]
      simp [h2, h3, h4]
    | false =>
      simp only [himg, Bool.false_eq_true, reduceIte] at h
      cases hc : create_slideshow env s.images url topicTitle "English" with
      | error e => rw [hc] at h; exact absurd h (by simp)
      | ok r' =>
        rw [hc] at h
        simp only [Except.ok.injEq] at h
        subst h
        rw [englishSlideshow, himg]
        simp only [Bool.false_eq_true, reduceIte, hc]
        simp [h2, h3, h4]

theorem scrapeEnglishTopics_ok (env : ScrapeEnv) :
    ∀ (secs : List PageSection) (s : ScrapeResult), scrapeEnglishTopics env secs = .ok s →
      s.children = (secs.map fun t =>
        ContentNode.topic t.section_key t.name (englishTopicChildren env t)) ∧
      s.requests = secs.flatMap (englishTopicRequests env) ∧
      (∀ t ∈ secs, ∃ r, scrape_collection_files env t.name
          (ENGLISH_ASSETS_URL env.englishCollectionKey t.section_key) = .ok r) := by
  intro secs
  induction secs with
  | nil =>
    intro s h
    simp only [scrapeEnglishTopics, Except.ok.injEq] at h
    subst h
    simp
  | cons t rest ih =>
    intro s h
    simp only [scrapeEnglishTopics] at h
    cases hc : scrape_collection_files env t.name
        (ENGLISH_ASSETS_URL env.englishCollectionKey t.section_key) with
    | error e => rw [hc] at h; simp at h
    | ok r =>
      rw [hc] at h
      cases hrec : scrapeEnglishTopics env rest with
      | error e => rw [hrec] at h; simp [Except.map] at h
      | ok s' =>
        rw [hrec] at h
        simp only [Except.map, Except.ok.injEq] at h
        subst h
        obtain ⟨h1, h2, h3⟩ := ih s' hrec
        refine ⟨?_, ?_, ?_⟩
        · simp [englishTopicChildren, hc, h1]
        · simp [englishTopicRequests, hc, h2]
        · intro t' ht'
          rcases List.mem_cons.mp ht' with he | ht'
          · exact ⟨r, he ▸ hc⟩
          · exact h3 t' ht'

theorem create_slideshow_fields (env : ScrapeEnv) (images : List ImageDict)
    (sid title ln : String) (r : SlideshowResult)
    (h : create_slideshow env images sid title ln = .ok r) :
    r.node.sourceId = sid ∧ r.node.title = title ∧
    r.node.language = some (LANGUAGE_MAP.lookup ln).join ∧ r.node.depth = 1 := by
  unfold create_slideshow at h
  cases images with
  | nil => simp at h
  | cons img0 rest =>
    cases hlk : LANGUAGE_MAP.lookup ln with
    | none =>
      cases hm : env.slidesMode <;> simp [hm, hlk, Bool.false_eq_true, reduceIte] at h
    | some code =>
      cases hm : env.slidesMode <;>
        simp only [hm, hlk, Bool.false_eq_true, reduceIte, Except.ok.injEq] at h <;>
        subst h <;>
        simp [ContentNode.sourceId, ContentNode.title, ContentNode.language,
          ContentNode.depth, Option.join]

theorem scrapeLanguages_ok (env : ScrapeEnv) :
    ∀ (secs : List PageSection) (s : ScrapeResult), scrapeLanguages env secs = .ok s →
      s.children = secs.flatMap (fun l => (languageOutput env l).1) ∧
      s.requests = secs.flatMap (fun l => (languageOutput env l).2) ∧
      s.warnings = [] ∧
      (∀ l ∈ secs, ∃ p, languageStep env l = .ok p) := by
  intro secs
  induction secs with
  | nil =>
    intro s h
    simp only [scrapeLanguages, Except.ok.injEq] at h
    subst h
    simp
  | cons language rest ih =>
    intro s h
    simp only [scrapeLanguages] at h
    cases hstep : languageStep env language with
    | error e => rw [hstep] at h; simp at h
    | ok p =>
      rw [hstep] at h
      cases hrec : scrapeLanguages env rest with
      | error e => rw [hrec] at h; simp [Except.map] at h
      | ok s' =>
        rw [hrec] at h
        simp only [Except.map, Except.ok.injEq] at h
        subst h
        obtain ⟨h1, h2, h3, h4⟩ := ih s' hrec
        refine ⟨?_, ?_, h3, ?_⟩
        · simp [languageOutput, hstep, h1]
        · simp [languageOutput, hstep, h2]
        · intro l hl
          rcases List.mem_cons.mp hl with he | hl
          · exact ⟨p, he ▸ hstep⟩
          · exact h4 l hl

theorem languageStep_ok_lookup (env : ScrapeEnv) (l : PageSection)
    (p : List ContentNode × List String) (h : languageStep env l = .ok p) :
    ∃ code, LANGUAGE_MAP.lookup l.name = some code := by
  simp only [languageStep] at h
  cases hlk : LANGUAGE_MAP.lookup l.name with
  | none => rw [hlk] at h; simp at h
  | some code => exact ⟨code, rfl⟩

theorem languageStep_node_fields (env : ScrapeEnv) (l : PageSection)
    (p : List ContentNode × List String) (h : languageStep env l = .ok p)
    (code : Option String) (hlk : LANGUAGE_MAP.lookup l.name = some code) :
    ∀ n ∈ p.1,
      n.title = translatedName env l code ∧
      n.language = some code ∧
      n.sourceId = SLIDESHOW_ASSETS_URL "qac6i4-foozd4-68u325" l.section_key ∧
      n.depth = 1 := by
  simp only [languageStep, hlk] at h
  split at h
  · simp only [Except.ok.injEq] at h
    subst h
    intro n hn
    simp at hn
  · split at h
    · simp at h
    · rename_i r heq
      simp only [Except.ok.injEq] at h
      subst h
      intro n hn
      simp only [List.mem_singleton] at hn
      subst hn
      obtain ⟨f1, f2, f3, f4⟩ := create_slideshow_fields env _ _ _ _ r heq
      rw [hlk] at f3
      refine ⟨by simpa [translatedName] using f2, by simpa using f3, f1, f4⟩

theorem depthList_le_one :
    ∀ (cs : List ContentNode), (∀ c ∈ cs, ContentNode.depth c = 1) →
      ContentNode.depthList cs ≤ 1 := by
  intro cs h
  induction cs with
  | nil => simp [ContentNode.depthList]
  | cons c cs ih =>
    simp only [ContentNode.depthList]
    have hc := h c (by simp)
    have hcs := ih fun c' hc' => h c' (by simp [hc'])
    exact max_le (le_of_eq hc) hcs

theorem mp4Child_depth (env : ScrapeEnv) (a : Asset) (n : ContentNode)
    (h : mp4Child env a = some n) : n.depth = 1 := by
  unfold mp4Child at h
  split at h
  · cases hv : env.fetchVideo (FILE_STORAGE_URL a.id) with
    | nil => rw [hv] at h; simp at h
    | cons v vs =>
      rw [hv] at h
      simp only [List.head?, Option.map_some] at h
      cases h
      rfl
  · simp at h

theorem englishSlideshow_depth (env : ScrapeEnv) (images : List ImageDict)
    (url title : String) :
    ∀ n ∈ (englishSlideshow env images url title).1, n.depth = 1 := by
  unfold englishSlideshow
  split
  · simp
  · split
    · rename_i r heq
      intro n hn
      simp only [List.mem_singleton] at hn
      subst hn
      exact (create_slideshow_fields env _ _ _ _ r heq).2.2.2
    · simp

theorem englishTopicChildren_depth (env : ScrapeEnv) (t : PageSection) :
    ∀ n ∈ englishTopicChildren env t, n.depth = 1 := by
  unfold englishTopicChildren
  split
  · rename_i r heq
    obtain ⟨hc, _, _⟩ := scrape_collection_files_ok env t.name _ r heq
    rw [hc]
    intro n hn
    rcases List.mem_append.mp hn with hmem | hmem
    · obtain ⟨a, _, ha⟩ := List.mem_filterMap.mp hmem
      exact mp4Child_depth env a n ha
    · exact englishSlideshow_depth env _ _ _ n hmem
  · simp

theorem languageOutput_depth (env : ScrapeEnv) (l : PageSection) :
    ∀ n ∈ (languageOutput env l).1, n.depth = 1 := by
  unfold languageOutput
  split
  · rename_i p heq
    intro n hn
    obtain ⟨code, hlk⟩ := languageStep_ok_lookup env l p heq
    exact (languageStep_node_fields env l p heq code hlk n hn).2.2.2
  · simp

theorem exceptMap_error {α β γ : Type} (f : α → β) (x : Except γ α) (e : γ)
    (h : Except.map f x = .error e) : x = .error e := by
  cases x with
  | error e' => simpa [Except.map] using h
  | ok a => simp [Except.map] at h

theorem processAssets_no_empty_err (env : ScrapeEnv) (url : String) :
    ∀ assets, processAssets env url assets ≠ .error .emptyImages := by
  intro assets
  induction assets with
  | nil => simp [processAssets]
  | cons a rest ih =>
    intro h
    cases hpng : a.attributes.extension == "png" with
    | true =>
      simp only [processAssets, hpng, reduceIte] at h
      exact ih (exceptMap_error _ _ _ h)
    | false =>
      cases hmp4 : a.attributes.extension == "mp4" with
      | true =>
        simp only [processAssets, hpng, hmp4, Bool.false_eq_true, reduceIte] at h
        cases hv : env.fetchVideo (FILE_STORAGE_URL a.id) with
        | nil => rw [hv] at h; simp at h
        | cons v vs =>
          rw [hv] at h
          exact ih (exceptMap_error _ _ _ h)
      | false =>
        simp only [processAssets, hpng, hmp4, Bool.false_eq_true, reduceIte] at h
        exact ih (exceptMap_error _ _ _ h)

theorem create_slideshow_cons_no_empty_err (env : ScrapeEnv) (img0 : ImageDict)
    (rest : List ImageDict) (sid title ln : String) :
    create_slideshow env (img0 :: rest) sid title ln ≠ .error .emptyImages := by
  intro h
  unfold create_slideshow at h
  cases hlk : LANGUAGE_MAP.lookup ln with
  | none => cases hm : env.slidesMode <;> simp [hm, hlk] at h
  | some code => cases hm : env.slidesMode <;> simp [hm, hlk] at h

theorem scrape_collection_files_no_empty_err (env : ScrapeEnv) (topicTitle url : String) :
    isEmptyImagesError (scrape_collection_files env topicTitle url) = false := by
  unfold scrape_collection_files
  cases hp : processAssets env url (env.fetchAssets url) with
  | error e =>
    cases e with
    | emptyImages => exact absurd hp (processAssets_no_empty_err env url _)
    | videoMissing => rfl
    | unknownLanguage => rfl
  | ok s =>
    cases himg : s.images.isEmpty with
    | true =>
      have hnil : s.images = [] := by simpa using himg
      simp [hnil, isEmptyImagesError]
    | false =>
      simp only [Bool.false_eq_true, reduceIte]
      cases hi : s.images with
      | nil => rw [hi] at himg; simp [List.isEmpty] at himg
      | cons img0 rest =>
        cases hc : create_slideshow env (img0 :: rest) url topicTitle "English" with
        | error e =>
          cases e with
          | emptyImages => exact absurd hc (create_slideshow_cons_no_empty_err env _ _ _ _ _)
          | videoMissing => simp [isEmptyImagesError]
          | unknownLanguage => simp [isEmptyImagesError]
        | ok r => simp [hc, isEmptyImagesError]

end StanfordDigitalMedic

namespace StanfordDigitalMedic

theorem create_slideshow_empty_err_iff (env : ScrapeEnv) (images : List ImageDict)
    (sid title ln : String) :
    create_slideshow env images sid title ln = .error .emptyImages ↔ images = [] := by
  cases images with
  | nil => simp [create_slideshow]
  | cons img0 rest =>
    simp only [List.cons_ne_nil, iff_false]
    exact create_slideshow_cons_no_empty_err env img0 rest sid title ln

theorem scrapeEnglishTopics_no_empty_err (env : ScrapeEnv) :
    ∀ secs, isEmptyImagesError (scrapeEnglishTopics env secs) = false := by
  intro secs
  induction secs with
  | nil => rfl
  | cons t rest ih =>
    simp only [scrapeEnglishTopics]
    cases hc : scrape_collection_files env t.name
        (ENGLISH_ASSETS_URL env.englishCollectionKey t.section_key) with
    | error e =>
      have hn := scrape_collection_files_no_empty_err env t.name
        (ENGLISH_ASSETS_URL env.englishCollectionKey t.section_key)
      rw [hc] at hn
      simpa using hn
    | ok r =>
      cases hrec : scrapeEnglishTopics env rest with
      | error e =>
        rw [hrec] at ih
        simpa [Except.map] using ih
      | ok s' => simp [Except.map, isEmptyImagesError]

theorem scrape_english_collection_no_empty_err (env : ScrapeEnv) :
    isEmptyImagesError (scrape_english_collection env) = false := by
  simp only [scrape_english_collection]
  split
  · rename_i e heq
    rw [← heq]
    exact scrapeEnglishTopics_no_empty_err env _
  · simp [isEmptyImagesError]

theorem languageStep_no_empty_err (env : ScrapeEnv) (l : PageSection) :
    languageStep env l ≠ .error .emptyImages := by
  intro h
  simp only [languageStep] at h
  cases hlk : LANGUAGE_MAP.lookup l.name with
  | none => rw [hlk] at h; simp at h
  | some code =>
    rw [hlk] at h
    simp only at h
    split at h
    · simp at h
    · rename_i hne
      split at h
      · rename_i e heq
        simp only [Except.error.injEq] at h
        subst h
        rw [create_slideshow_empty_err_iff] at heq
        rw [heq] at hne
        simp at hne
      · simp at h

theorem scrapeLanguages_no_empty_err (env : ScrapeEnv) :
    ∀ secs, isEmptyImagesError (scrapeLanguages env secs) = false := by
  intro secs
  induction secs with
  | nil => rfl
  | cons l rest ih =>
    simp only [scrapeLanguages]
    cases hstep : languageStep env l with
    | error e =>
      cases e with
      | emptyImages => exact absurd hstep (languageStep_no_empty_err env l)
      | videoMissing => rfl
      | unknownLanguage => rfl
    | ok p =>
      cases hrec : scrapeLanguages env rest with
      | error e =>
        rw [hrec] at ih
        simpa [Except.map] using ih
      | ok s' => simp [Except.map, isEmptyImagesError]

theorem scrape_multilanguage_slideshows_no_empty_err (env : ScrapeEnv) :
    isEmptyImagesError (scrape_multilanguage_slideshows env) = false := by
  unfold scrape_multilanguage_slideshows
  cases hrec : scrapeLanguages env env.multilangSections with
  | error e =>
    have hn := scrapeLanguages_no_empty_err env env.multilangSections
    rw [hrec] at hn
    simpa using hn
  | ok s => simp [isEmptyImagesError]

theorem construct_channel_no_empty_err (env : ScrapeEnv) :
    isEmptyImagesError (construct_channel env) = false := by
  unfold construct_channel
  cases he : scrape_english_collection env with
  | error e =>
    have hn := scrape_english_collection_no_empty_err env
    rw [he] at hn
    simpa using hn
  | ok english =>
    cases hm : scrape_multilanguage_slideshows env with
    | error e =>
      have hn := scrape_multilanguage_slideshows_no_empty_err env
      rw [hm] at hn
      simpa using hn
    | ok multi => simp [isEmptyImagesError]

theorem scrape_english_collection_ok (env : ScrapeEnv) (s : ScrapeResult)
    (h : scrape_english_collection env = .ok s) :
    s.children = ((env.englishSections.filter notExcluded).map
      fun t => ContentNode.topic t.section_key t.name (englishTopicChildren env t)) ∧
    s.requests = ENGLISH_COLLECTION_URL ::
      (env.englishSections.filter notExcluded).flatMap (englishTopicRequests env) ∧
    (∀ t ∈ env.englishSections.filter notExcluded,
      ∃ r, scrape_collection_files env t.name
        (ENGLISH_ASSETS_URL env.englishCollectionKey t.section_key) = .ok r) := by
  simp only [scrape_english_collection] at h
  split at h
  · simp at h
  · rename_i s' heq
    simp only [Except.ok.injEq] at h
    subst h
    obtain ⟨e1, e2, e3⟩ := scrapeEnglishTopics_ok env _ s' heq
    exact ⟨e1, by rw [e2], e3⟩

theorem scrape_multilanguage_slideshows_ok (env : ScrapeEnv) (s : ScrapeResult)
    (h : scrape_multilanguage_slideshows env = .ok s) :
    s.children = env.multilangSections.flatMap (fun l => (languageOutput env l).1) ∧
    s.requests = SLIDESHOWS_URL ::
      env.multilangSections.flatMap (fun l => (languageOutput env l).2) ∧
    s.warnings = [] ∧
    (∀ l ∈ env.multilangSections, ∃ p, languageStep env l = .ok p) := by
  simp only [scrape_multilanguage_slideshows] at h
  split at h
  · simp at h
  · rename_i s' heq
    simp only [Except.ok.injEq] at h
    subst h
    obtain ⟨e1, e2, e3, e4⟩ := scrapeLanguages_ok env _ s' heq
    exact ⟨e1, by rw [e2], e3, e4⟩

theorem construct_channel_ok (env : ScrapeEnv) (out : ScrapeResult)
    (h : construct_channel env = .ok out) :
    ∃ english multi, scrape_english_collection env = .ok english ∧
      scrape_multilanguage_slideshows env = .ok multi ∧
      out.children = english.children ++ multi.children ∧
      out.requests = english.requests ++ multi.requests := by
  unfold construct_channel at h
  cases he : scrape_english_collection env with
  | error e => rw [he] at h; simp at h
  | ok english =>
    rw [he] at h
    cases hm : scrape_multilanguage_slideshows env with
    | error e => rw [hm] at h; simp at h
    | ok multi =>
      rw [hm] at h
      simp only [Except.ok.injEq] at h
      subst h
      exact ⟨english, multi, rfl, rfl, rfl, rfl⟩

/-- Recognise a `SlideshowNode`. -/
def isSlideshowNode : ContentNode → Bool
  | .slideshow _ _ _ _ => true
  | _ => false

/-- Recognise a `DocumentNode`. -/
def isDocumentNode : ContentNode → Bool
  | .document _ _ _ _ => true
  | _ => false

/-- The paths of the `DocumentFile`s attached to a document node. -/
def documentPaths (n : ContentNode) : List String :=
  match n with
  | .document _ _ _ fs => fs.filterMap fun f =>
      match f with
      | .documentFile p => some p
      | _ => none
  | _ => []

/-- Project an `ok` scrape result, with an empty default. -/
def okOr (x : Except ChefError ScrapeResult) : ScrapeResult :=
  match x with
  | .ok s => s
  | .error _ => { children := [], requests := [], warnings := [] }

/-- Project an `ok` `create_slideshow` result, with a dummy default. -/
def okOrSlideshow (x : Except ChefError SlideshowResult) : SlideshowResult :=
  match x with
  | .ok s => s
  | .error _ => { node := .topic "" "" [], downloads := [], wrote := [] }

theorem create_slideshow_slides (env : ScrapeEnv) (img0 : ImageDict)
    (rest : List ImageDict) (sid title ln : String) (code : Option String)
    (hmode : env.slidesMode = true) (hln : LANGUAGE_MAP.lookup ln = some code) :
    create_slideshow env (img0 :: rest) sid title ln = .ok
      { node := ContentNode.slideshow sid title code
          (ContentFile.thumbnail img0.url ::
            (img0 :: rest).map fun image =>
              ContentFile.slideImage image.url (image.caption.getD "")),
        downloads := [], wrote := [] } := by
  simp [create_slideshow, hmode, hln]

theorem create_slideshow_pdf (env : ScrapeEnv) (img0 : ImageDict)
    (rest : List ImageDict) (sid title ln : String) (code : Option String)
    (hmode : env.slidesMode = false) (hln : LANGUAGE_MAP.lookup ln = some code) :
    create_slideshow env (img0 :: rest) sid title ln = .ok
      { node := ContentNode.document sid title code
          [ContentFile.thumbnail img0.url, ContentFile.documentFile (pdfPath env sid)],
        downloads := if env.fsExists (pdfPath env sid) then []
          else (img0 :: rest).map fun i => i.url,
        wrote := if env.fsExists (pdfPath env sid) then []
          else [(pdfPath env sid, (img0 :: rest).map fun i => i.url)] } := by
  simp only [create_slideshow, hmode, hln, Bool.false_eq_true, reduceIte]
  cases hfs : env.fsExists (pdfPath env sid) <;> simp [hfs]

theorem languageStep_ok_spec (env : ScrapeEnv) (l : PageSection)
    (p : List ContentNode × List String) (h : languageStep env l = .ok p) :
    p = ([], [SLIDESHOW_ASSETS_URL "qac6i4-foozd4-68u325" l.section_key]) ∨
    (∃ r code, LANGUAGE_MAP.lookup l.name = some code ∧
      create_slideshow env
        ((env.fetchAssets (SLIDESHOW_ASSETS_URL "qac6i4-foozd4-68u325" l.section_key)).map
          fun slide =>
            ({ url := pyReplace slide.attributes.thumbnail_url "element.png" "view@2x.png",
               caption := none } : ImageDict))
        (SLIDESHOW_ASSETS_URL "qac6i4-foozd4-68u325" l.section_key)
        (translatedName env l code) l.name = .ok r ∧
      p = ([r.node],
        SLIDESHOW_ASSETS_URL "qac6i4-foozd4-68u325" l.section_key :: r.downloads)) := by
  simp only [languageStep] at h
  cases hlk : LANGUAGE_MAP.lookup l.name with
  | none => rw [hlk] at h; simp at h
  | some code =>
    rw [hlk] at h
    simp only at h
    split at h
    · left
      simp only [Except.ok.injEq] at h
      exact h.symm
    · split at h
      · simp at h
      · rename_i r heq
        simp only [Except.ok.injEq] at h
        right
        exact ⟨r, code, rfl, by simpa [translatedName] using heq, h.symm⟩

theorem languageStep_request_mem (env : ScrapeEnv) (l : PageSection)
    (p : List ContentNode × List String) (h : languageStep env l = .ok p) :
    SLIDESHOW_ASSETS_URL "qac6i4-foozd4-68u325" l.section_key ∈ p.2 := by
  rcases languageStep_ok_spec env l p h with hp | ⟨r, code, _, _, hp⟩ <;> rw [hp] <;> simp

theorem englishTopicRequests_head (env : ScrapeEnv) (t : PageSection)
    (r : ScrapeResult)
    (h : scrape_collection_files env t.name
      (ENGLISH_ASSETS_URL env.englishCollectionKey t.section_key) = .ok r) :
    ENGLISH_ASSETS_URL env.englishCollectionKey t.section_key ∈
      englishTopicRequests env t := by
  unfold englishTopicRequests
  rw [h]
  obtain ⟨_, h2, _⟩ := scrape_collection_files_ok env t.name _ r h
  simp only
  rw [h2]
  exact List.mem_cons_self _ _

/-! ## Claim theorems -/

/-- C1: for every asset returned by a section's asset API call,
`scrape_collection_files` branches on the asset's file extension: the `png`
assets are collected, in order, as images whose thumbnail URL has
`element.png` rewritten to `view@2x.png` and whose caption is the asset
name, and they feed the final slideshow child; each `mp4` asset adds a
`VideoNode` child of the topic; an asset with any other extension logs an
`Unable to add` warning and contributes nothing to the output tree. -/
theorem c1_asset_extension_branching (env : ScrapeEnv) (topicTitle url : String)
    (r : ScrapeResult) (h : scrape_collection_files env topicTitle url = .ok r) :
    r.children = (env.fetchAssets url).filterMap (mp4Child env)
        ++ (englishSlideshow env (((env.fetchAssets url).filter
              fun a => a.attributes.extension == "png").map pngImage) url topicTitle).1 ∧
    r.warnings = ((env.fetchAssets url).filter isOtherExt).map fun a => warnMsg a url := by
  obtain ⟨h1, _, h3⟩ := scrape_collection_files_ok env topicTitle url r h
  exact ⟨h1, h3⟩

/-- C2: the emitted tree has at most two levels of nesting below the
channel root: every child `construct_channel` adds to the channel has depth
at most 2 (topic nodes hold only leaf children; multi-language slideshow
nodes are leaves). -/
theorem c2_two_level_nesting (env : ScrapeEnv) (out : ScrapeResult)
    (h : construct_channel env = .ok out) :
    ∀ n ∈ out.children, n.depth ≤ 2 := by
  obtain ⟨english, multi, he, hm, hc, _⟩ := construct_channel_ok env out h
  intro n hn
  rw [hc] at hn
  rcases List.mem_append.mp hn with hmem | hmem
  · obtain ⟨e1, _, _⟩ := scrape_english_collection_ok env english he
    rw [e1] at hmem
    obtain ⟨t, ht, rfl⟩ := List.mem_map.mp hmem
    simp only [ContentNode.depth]
    have hd := depthList_le_one (englishTopicChildren env t) (englishTopicChildren_depth env t)
    omega
  · obtain ⟨m1, _, _, _⟩ := scrape_multilanguage_slideshows_ok env multi hm
    rw [m1] at hmem
    obtain ⟨l, hl, hnl⟩ := List.mem_flatMap.mp hmem
    have hd := languageOutput_depth env l n hnl
    omega



/-- C3: in PDF mode, when the PDF file for the slideshow's `source_id`
already exists on disk, `create_slideshow` downloads no image and writes no
PDF, reusing the existing file in the returned node; when it does not
exist, every image is downloaded and the PDF is written. In every other
respect a run re-scrapes unconditionally: whatever the filesystem state,
a successful `construct_channel` run requests both collection pages, every
non-excluded English section's assets URL, and every multi-language
section's assets URL. -/
theorem c3_pdf_cache_skip (env : ScrapeEnv) (img0 : ImageDict)
    (rest : List ImageDict) (sid title ln : String) (code : Option String)
    (r : SlideshowResult)
    (hmode : env.slidesMode = false)
    (hln : LANGUAGE_MAP.lookup ln = some code)
    (h : create_slideshow env (img0 :: rest) sid title ln = .ok r) :
    (env.fsExists (pdfPath env sid) = true → r.downloads = [] ∧ r.wrote = []) ∧
    (env.fsExists (pdfPath env sid) = false →
      r.downloads = (img0 :: rest).map (fun i => i.url) ∧
      r.wrote = [(pdfPath env sid, (img0 :: rest).map fun i => i.url)]) ∧
    r.node = ContentNode.document sid title code
      [ContentFile.thumbnail img0.url, ContentFile.documentFile (pdfPath env sid)] ∧
    (∀ out, construct_channel env = .ok out →
      ENGLISH_COLLECTION_URL ∈ out.requests ∧
      SLIDESHOWS_URL ∈ out.requests ∧
      (∀ t ∈ env.englishSections.filter notExcluded,
        ENGLISH_ASSETS_URL env.englishCollectionKey t.section_key ∈ out.requests) ∧
      (∀ l ∈ env.multilangSections,
        SLIDESHOW_ASSETS_URL "qac6i4-foozd4-68u325" l.section_key ∈ out.requests)) := by
  rw [create_slideshow_pdf env img0 rest sid title ln code hmode hln] at h
  simp only [Except.ok.injEq] at h
  subst h
  refine ⟨fun hfs => by simp [hfs], fun hfs => by simp [hfs], rfl, ?_⟩
  intro out hout
  obtain ⟨english, multi, he, hm, _, hreq⟩ := construct_channel_ok env out hout
  obtain ⟨_, e2, e3⟩ := scrape_english_collection_ok env english he
  obtain ⟨_, m2, _, m4⟩ := scrape_multilanguage_slideshows_ok env multi hm
  rw [hreq, e2, m2]
  refine ⟨by simp, by simp, ?_, ?_⟩
  · intro t ht
    obtain ⟨rt, hrt⟩ := e3 t ht
    have := englishTopicRequests_head env t rt hrt
    simp only [List.mem_append, List.mem_cons]
    exact Or.inl (Or.inr (List.mem_flatMap.mpr ⟨t, ht, this⟩))
  · intro l hl
    obtain ⟨p, hp⟩ := m4 l hl
    have hlo : languageOutput env l = p := by unfold languageOutput; rw [hp]
    have hmem := languageStep_request_mem env l p hp
    rw [← hlo] at hmem
    simp only [List.mem_append, List.mem_cons]
    exact Or.inr (Or.inr (List.mem_flatMap.mpr ⟨l, hl, hmem⟩))

/-- C4: a non-empty image list is packaged as exactly one of two node
kinds: with `--slides` on the command line, a `SlideshowNode` whose slide
files carry the image URLs and optional captions in input order (after the
thumbnail file); otherwise a `DocumentNode` wrapping a PDF flattened from
the images in input order. -/
theorem c4_slideshow_packaging (env : ScrapeEnv) (img0 : ImageDict)
    (rest : List ImageDict) (sid title ln : String) (code : Option String)
    (hln : LANGUAGE_MAP.lookup ln = some code) :
    ∃ r, create_slideshow env (img0 :: rest) sid title ln = .ok r ∧
      (env.slidesMode = true →
        r.node = ContentNode.slideshow sid title code
          (ContentFile.thumbnail img0.url ::
            (img0 :: rest).map fun image =>
              ContentFile.slideImage image.url (image.caption.getD ""))) ∧
      (env.slidesMode = false →
        r.node = ContentNode.document sid title code
          [ContentFile.thumbnail img0.url, ContentFile.documentFile (pdfPath env sid)] ∧
        (env.fsExists (pdfPath env sid) = false →
          r.wrote = [(pdfPath env sid, (img0 :: rest).map fun i => i.url)])) ∧
      isSlideshowNode r.node = env.slidesMode ∧
      isDocumentNode r.node = !env.slidesMode := by
  cases hmode : env.slidesMode with
  | true =>
    refine ⟨_, create_slideshow_slides env img0 rest sid title ln code hmode hln, ?_, ?_, rfl, rfl⟩
    · intro _; rfl
    · intro hfalse; simp at hfalse
  | false =>
    refine ⟨_, create_slideshow_pdf env img0 rest sid title ln code hmode hln, ?_, ?_, rfl, rfl⟩
    · intro htrue; simp at htrue
    · intro _
      refine ⟨rfl, fun hfs => by simp [hfs]⟩



/-- A section assets URL used by the C5 counterexample. -/
def c5url : String := ENGLISH_ASSETS_URL "ck" "sec1"

/-- An environment whose asset API returns five `png` assets for every URL:
enough metadata that a paginated fetcher would plausibly need several
pages, yet the scraper issues a single request. -/
def c5env : ScrapeEnv :=
  { slidesMode := true
    fsExists := fun _ => false
    md5hex := fun _ => "0123abcd"
    fetchAssets := fun _ =>
      [ { id := "b1", attributes :=
            { extension := "png", thumbnail_url := "https://cdn.example/s1.png", name := "S1" } },
        { id := "b2", attributes :=
            { extension := "png", thumbnail_url := "https://cdn.example/s2.png", name := "S2" } },
        { id := "b3", attributes :=
            { extension := "png", thumbnail_url := "https://cdn.example/s3.png", name := "S3" } },
        { id := "b4", attributes :=
            { extension := "png", thumbnail_url := "https://cdn.example/s4.png", name := "S4" } },
        { id := "b5", attributes :=
            { extension := "png", thumbnail_url := "https://cdn.example/s5.png", name := "S5" } } ]
    fetchVideo := fun _ => []
    englishCollectionKey := "ck"
    englishSections := [{ id := 1, section_key := "sec1", name := "Section One" }]
    multilangSections := []
    nativeName := fun c => c }

/-- The same environment with a single asset. -/
def c5envSmall : ScrapeEnv :=
  { c5env with fetchAssets := fun _ =>
      [ { id := "b1", attributes :=
            { extension := "png", thumbnail_url := "https://cdn.example/s1.png", name := "S1" } } ] }

/-- C5 counterexample: `scrape_collection_files` does not issue successive
page requests until all asset metadata is retrieved — whether the section
holds five assets or one, its whole `downloader.read` trace is the single
request to the section's assets URL. -/
theorem c5_single_request_counterexample :
    (c5env.fetchAssets c5url).length = 5 ∧
    scrape_collection_files c5env "Topic" c5url =
      Except.ok (okOr (scrape_collection_files c5env "Topic" c5url)) ∧
    (okOr (scrape_collection_files c5env "Topic" c5url)).requests = [c5url] ∧
    (c5envSmall.fetchAssets c5url).length = 1 ∧
    scrape_collection_files c5envSmall "Topic" c5url =
      Except.ok (okOr (scrape_collection_files c5envSmall "Topic" c5url)) ∧
    (okOr (scrape_collection_files c5envSmall "Topic" c5url)).requests = [c5url] :=
  ⟨rfl, rfl, rfl, rfl, rfl, rfl⟩

/-- C5 amended: asset metadata is fetched with a single (non-paginated)
API call per section. The trace of a successful `scrape_collection_files`
consists of exactly one request to the section's assets URL (its head),
followed only by per-`mp4` attachment requests and the slideshow's image
downloads; a successful multi-language `languageStep` likewise requests its
section's assets URL exactly once, followed only by image downloads. -/
theorem c5_one_request_per_section (env : ScrapeEnv) (topicTitle url : String)
    (r : ScrapeResult) (h : scrape_collection_files env topicTitle url = .ok r)
    (l : PageSection) (p : List ContentNode × List String)
    (hl : languageStep env l = .ok p) :
    r.requests = url ::
      (((env.fetchAssets url).filter fun a => a.attributes.extension == "mp4").map
        fun a => FILE_STORAGE_URL a.id)
      ++ (englishSlideshow env (collectedImages env url) url topicTitle).2 ∧
    (p.2 = [SLIDESHOW_ASSETS_URL "qac6i4-foozd4-68u325" l.section_key] ∨
      ∃ r' : SlideshowResult,
        p.2 = SLIDESHOW_ASSETS_URL "qac6i4-foozd4-68u325" l.section_key :: r'.downloads ∧
        p.1 = [r'.node]) := by
  obtain ⟨_, h2, _⟩ := scrape_collection_files_ok env topicTitle url r h
  refine ⟨h2, ?_⟩
  rcases languageStep_ok_spec env l p hl with hp | ⟨r', code, _, _, hp⟩
  · left; rw [hp]
  · right; exact ⟨r', by rw [hp], by rw [hp]⟩



/-- C6: every non-excluded section of the English page yields exactly one
topic node whose `source_id` is the section's `section_key` and whose title
is the section's `name`, with children scraped from the assets URL built
from the collection key and that same `section_key`; that URL is requested
during the run. -/
theorem c6_section_topic_nodes (env : ScrapeEnv) (s : ScrapeResult)
    (h : scrape_english_collection env = .ok s) :
    s.children = ((env.englishSections.filter notExcluded).map
      fun t => ContentNode.topic t.section_key t.name (englishTopicChildren env t)) ∧
    (∀ t ∈ env.englishSections.filter notExcluded,
      ENGLISH_ASSETS_URL env.englishCollectionKey t.section_key ∈ s.requests) := by
  obtain ⟨e1, e2, e3⟩ := scrape_english_collection_ok env s h
  refine ⟨e1, ?_⟩
  intro t ht
  obtain ⟨r, hr⟩ := e3 t ht
  rw [e2]
  exact List.mem_cons_of_mem _
    (List.mem_flatMap.mpr ⟨t, ht, englishTopicRequests_head env t r hr⟩)

/-- C7: language-name-to-code translation is the static `LANGUAGE_MAP`
lookup: every node a multi-language section adds to the channel has as its
title the native name of the mapped code when that code is non-null and
the section's own name when the mapped code is null, and carries the mapped
code itself as its `language` field. -/
theorem c7_language_map_translation (env : ScrapeEnv) (s : ScrapeResult)
    (h : scrape_multilanguage_slideshows env = .ok s) :
    s.children = env.multilangSections.flatMap (fun l => (languageOutput env l).1) ∧
    (∀ l ∈ env.multilangSections, ∀ code, LANGUAGE_MAP.lookup l.name = some code →
      ∀ n ∈ (languageOutput env l).1,
        n.title = translatedName env l code ∧ n.language = some code) := by
  obtain ⟨m1, _, _, m4⟩ := scrape_multilanguage_slideshows_ok env s h
  refine ⟨m1, ?_⟩
  intro l hl code hcode n hn
  obtain ⟨p, hp⟩ := m4 l hl
  have hlo : languageOutput env l = p := by unfold languageOutput; rw [hp]
  rw [hlo] at hn
  obtain ⟨f1, f2, _, _⟩ := languageStep_node_fields env l p hp code hcode n hn
  exact ⟨f1, f2⟩

/-- C8: sections of the English page whose id is 262354 or 261412 are
silently omitted and every other section yields exactly one topic node, in
the same relative order as the sections appear in the page data: the
emitted source ids are exactly the section keys of the retained sections. -/
theorem c8_excluded_sections (env : ScrapeEnv) (s : ScrapeResult)
    (h : scrape_english_collection env = .ok s) :
    EXCLUDED_TOPIC_IDS = [262354, 261412] ∧
    s.children.map ContentNode.sourceId =
      (env.englishSections.filter notExcluded).map PageSection.section_key := by
  obtain ⟨e1, _, _⟩ := scrape_english_collection_ok env s h
  refine ⟨rfl, ?_⟩
  rw [e1, List.map_map]
  rfl

/-- C9: the PDF path is a deterministic function of `source_id` alone —
the documents directory joined with `md5hex source_id` and the `.pdf`
suffix — so any two PDF-mode `create_slideshow` runs with the same
`source_id` target the same file, whatever their images, titles or
languages. -/
theorem c9_pdf_path_deterministic (env : ScrapeEnv) (sid : String)
    (images1 images2 : List ImageDict) (t1 t2 ln1 ln2 : String)
    (r1 r2 : SlideshowResult)
    (hmode : env.slidesMode = false)
    (h1 : create_slideshow env images1 sid t1 ln1 = .ok r1)
    (h2 : create_slideshow env images2 sid t2 ln2 = .ok r2) :
    pdfPath env sid = DOCUMENT_DOWNLOAD_DIR ++ PATH_SEP ++ env.md5hex sid ++ ".pdf" ∧
    documentPaths r1.node = [pdfPath env sid] ∧
    documentPaths r2.node = [pdfPath env sid] := by
  refine ⟨rfl, ?_, ?_⟩
  · cases images1 with
    | nil => simp [create_slideshow] at h1
    | cons img0 rest =>
      cases hlk : LANGUAGE_MAP.lookup ln1 with
      | none => simp [create_slideshow, hmode, hlk] at h1
      | some code =>
        rw [create_slideshow_pdf env img0 rest sid t1 ln1 code hmode hlk] at h1
        simp only [Except.ok.injEq] at h1
        subst h1
        simp [documentPaths]
  · cases images2 with
    | nil => simp [create_slideshow] at h2
    | cons img0 rest =>
      cases hlk : LANGUAGE_MAP.lookup ln2 with
      | none => simp [create_slideshow, hmode, hlk] at h2
      | some code =>
        rw [create_slideshow_pdf env img0 rest sid t2 ln2 code hmode hlk] at h2
        simp only [Except.ok.injEq] at h2
        subst h2
        simp [documentPaths]

/-- C10: `create_slideshow` is only ever reached with a non-empty image
list — both call sites guard the call with a length check — so the
`images[0]` and `image_list[0]` accesses can never raise: no run of any
scraping entry point aborts with the empty-image-list `IndexError`. -/
theorem c10_no_empty_images_error (env : ScrapeEnv) (topicTitle url : String)
    (secs : List PageSection) :
    isEmptyImagesError (scrape_collection_files env topicTitle url) = false ∧
    isEmptyImagesError (scrapeLanguages env secs) = false ∧
    isEmptyImagesError (scrape_english_collection env) = false ∧
    isEmptyImagesError (scrape_multilanguage_slideshows env) = false ∧
    isEmptyImagesError (construct_channel env) = false :=
  ⟨scrape_collection_files_no_empty_err env topicTitle url,
   scrapeLanguages_no_empty_err env secs,
   scrape_english_collection_no_empty_err env,
   scrape_multilanguage_slideshows_no_empty_err env,
   construct_channel_no_empty_err env⟩



/-! ## Concrete environments for the witnesses -/

/-- The assets URL of the demo English section. -/
def demoUrl : String := ENGLISH_ASSETS_URL "ck" "sec-handwashing"

/-- A small concrete environment: one excluded and one retained English
section, a mixed-extension asset listing, two multi-language sections
(one with a non-null code, one — Tetun — with a null code), `--slides`
passed. -/
def demoEnv : ScrapeEnv :=
  { slidesMode := true
    fsExists := fun _ => false
    md5hex := fun _ => "0123abcd"
    fetchAssets := fun _ =>
      [ { id := "a1", attributes :=
            { extension := "png",
              thumbnail_url := "https://cdn.example/one/element.png", name := "One" } },
        { id := "a2", attributes :=
            { extension := "mp4",
              thumbnail_url := "https://cdn.example/two/element.png", name := "Two" } },
        { id := "a3", attributes :=
            { extension := "pdf",
              thumbnail_url := "https://cdn.example/three/element.png", name := "Three" } } ]
    fetchVideo := fun _ =>
      [{ url := "https://cdn.example/video.mp4",
         thumbnail_url := "https://cdn.example/video-thumb.png" }]
    englishCollectionKey := "ck"
    englishSections :=
      [ { id := 262354, section_key := "sec-excluded", name := "Excluded Section" },
        { id := 7, section_key := "sec-handwashing", name := "Handwashing" } ]
    multilangSections :=
      [ { id := 9, section_key := "sec-es", name := "Spanish" },
        { id := 10, section_key := "sec-tet", name := "Tetun" } ]
    nativeName := fun c => "native-" ++ c }

/-- The demo environment without `--slides` (PDF mode). -/
def pdfEnv : ScrapeEnv := { demoEnv with slidesMode := false }

/-- A concrete image dict. -/
def demoImage : ImageDict :=
  { url := "https://cdn.example/slide1.png", caption := some "Slide 1" }

/-- Project an `ok` `languageStep` result, with an empty default. -/
def okOrPair (x : Except ChefError (List ContentNode × List String)) :
    List ContentNode × List String :=
  match x with
  | .ok p => p
  | .error _ => ([], [])

/-- The result `scrape_collection_files` produces on the demo section. -/
def c1res : ScrapeResult := okOr (scrape_collection_files demoEnv "Topic" demoUrl)

/-- Witness for C1: the demo section run branches as stated. -/
theorem c1_asset_extension_branching_witness :
    scrape_collection_files demoEnv "Topic" demoUrl = Except.ok c1res ∧
    (c1res.children = (demoEnv.fetchAssets demoUrl).filterMap (mp4Child demoEnv)
        ++ (englishSlideshow demoEnv (((demoEnv.fetchAssets demoUrl).filter
              fun a => a.attributes.extension == "png").map pngImage) demoUrl "Topic").1 ∧
     c1res.warnings = ((demoEnv.fetchAssets demoUrl).filter isOtherExt).map
        fun a => warnMsg a demoUrl) :=
  ⟨rfl, c1_asset_extension_branching demoEnv "Topic" demoUrl c1res rfl⟩

/-- The channel tree built from the demo environment. -/
def c2res : ScrapeResult := okOr (construct_channel demoEnv)

/-- Witness for C2: the demo channel's children stay within depth 2. -/
theorem c2_two_level_nesting_witness :
    construct_channel demoEnv = Except.ok c2res ∧
    ∀ n ∈ c2res.children, n.depth ≤ 2 :=
  ⟨rfl, c2_two_level_nesting demoEnv c2res rfl⟩



/-- The PDF-mode slideshow built from one concrete image. -/
def c3res : SlideshowResult :=
  okOrSlideshow (create_slideshow pdfEnv [demoImage] "sid-1" "Title" "English")

/-- Witness for C3 at a concrete PDF-mode run. -/
theorem c3_pdf_cache_skip_witness :
    pdfEnv.slidesMode = false ∧
    LANGUAGE_MAP.lookup "English" = some (some "en") ∧
    create_slideshow pdfEnv [demoImage] "sid-1" "Title" "English" = Except.ok c3res ∧
    ((pdfEnv.fsExists (pdfPath pdfEnv "sid-1") = true →
        c3res.downloads = [] ∧ c3res.wrote = []) ∧
     (pdfEnv.fsExists (pdfPath pdfEnv "sid-1") = false →
        c3res.downloads = [demoImage].map (fun i => i.url) ∧
        c3res.wrote = [(pdfPath pdfEnv "sid-1", [demoImage].map fun i => i.url)]) ∧
     c3res.node = ContentNode.document "sid-1" "Title" (some "en")
       [ContentFile.thumbnail demoImage.url,
        ContentFile.documentFile (pdfPath pdfEnv "sid-1")] ∧
     (∀ out, construct_channel pdfEnv = .ok out →
        ENGLISH_COLLECTION_URL ∈ out.requests ∧
        SLIDESHOWS_URL ∈ out.requests ∧
        (∀ t ∈ pdfEnv.englishSections.filter notExcluded,
          ENGLISH_ASSETS_URL pdfEnv.englishCollectionKey t.section_key ∈ out.requests) ∧
        (∀ l ∈ pdfEnv.multilangSections,
          SLIDESHOW_ASSETS_URL "qac6i4-foozd4-68u325" l.section_key ∈ out.requests))) :=
  ⟨rfl, rfl, rfl,
   c3_pdf_cache_skip pdfEnv demoImage [] "sid-1" "Title" "English" (some "en") c3res
     rfl rfl rfl⟩

/-- Witness for C4 at a concrete slides-mode run. -/
theorem c4_slideshow_packaging_witness :
    LANGUAGE_MAP.lookup "English" = some (some "en") ∧
    (∃ r, create_slideshow demoEnv [demoImage] "sid-1" "Title" "English" = .ok r ∧
      (demoEnv.slidesMode = true →
        r.node = ContentNode.slideshow "sid-1" "Title" (some "en")
          (ContentFile.thumbnail demoImage.url ::
            [demoImage].map fun image =>
              ContentFile.slideImage image.url (image.caption.getD ""))) ∧
      (demoEnv.slidesMode = false →
        r.node = ContentNode.document "sid-1" "Title" (some "en")
          [ContentFile.thumbnail demoImage.url,
           ContentFile.documentFile (pdfPath demoEnv "sid-1")] ∧
        (demoEnv.fsExists (pdfPath demoEnv "sid-1") = false →
          r.wrote = [(pdfPath demoEnv "sid-1", [demoImage].map fun i => i.url)])) ∧
      isSlideshowNode r.node = demoEnv.slidesMode ∧
      isDocumentNode r.node = !demoEnv.slidesMode) :=
  ⟨rfl, c4_slideshow_packaging demoEnv demoImage [] "sid-1" "Title" "English" (some "en") rfl⟩

/-- The Spanish demo section. -/
def c5sec : PageSection := { id := 9, section_key := "sec-es", name := "Spanish" }

/-- The demo English section's scrape result, for the C5 witness. -/
def c5wres : ScrapeResult := okOr (scrape_collection_files demoEnv "Topic" demoUrl)

/-- The Spanish demo section's step output, for the C5 witness. -/
def c5wp : List ContentNode × List String := okOrPair (languageStep demoEnv c5sec)

/-- Witness for the amended C5 at concrete runs of both scrapers. -/
theorem c5_one_request_per_section_witness :
    scrape_collection_files demoEnv "Topic" demoUrl = Except.ok c5wres ∧
    languageStep demoEnv c5sec = Except.ok c5wp ∧
    (c5wres.requests = demoUrl ::
      (((demoEnv.fetchAssets demoUrl).filter fun a => a.attributes.extension == "mp4").map
        fun a => FILE_STORAGE_URL a.id)
      ++ (englishSlideshow demoEnv (collectedImages demoEnv demoUrl) demoUrl "Topic").2 ∧
    (c5wp.2 = [SLIDESHOW_ASSETS_URL "qac6i4-foozd4-68u325" c5sec.section_key] ∨
      ∃ r' : SlideshowResult,
        c5wp.2 = SLIDESHOW_ASSETS_URL "qac6i4-foozd4-68u325" c5sec.section_key :: r'.downloads ∧
        c5wp.1 = [r'.node])) :=
  ⟨rfl, rfl, c5_one_request_per_section demoEnv "Topic" demoUrl c5wres rfl c5sec c5wp rfl⟩



/-- The demo English collection scrape result, for the C6 witness. -/
def c6res : ScrapeResult := okOr (scrape_english_collection demoEnv)

/-- Witness for C6 on the demo English collection. -/
theorem c6_section_topic_nodes_witness :
    scrape_english_collection demoEnv = Except.ok c6res ∧
    (c6res.children = ((demoEnv.englishSections.filter notExcluded).map
      fun t => ContentNode.topic t.section_key t.name (englishTopicChildren demoEnv t)) ∧
    (∀ t ∈ demoEnv.englishSections.filter notExcluded,
      ENGLISH_ASSETS_URL demoEnv.englishCollectionKey t.section_key ∈ c6res.requests)) :=
  ⟨rfl, c6_section_topic_nodes demoEnv c6res rfl⟩

/-- The demo multi-language scrape result, for the C7 witness. -/
def c7res : ScrapeResult := okOr (scrape_multilanguage_slideshows demoEnv)

/-- Witness for C7 on the demo multi-language collection. -/
theorem c7_language_map_translation_witness :
    scrape_multilanguage_slideshows demoEnv = Except.ok c7res ∧
    (c7res.children = demoEnv.multilangSections.flatMap
        (fun l => (languageOutput demoEnv l).1) ∧
    (∀ l ∈ demoEnv.multilangSections, ∀ code, LANGUAGE_MAP.lookup l.name = some code →
      ∀ n ∈ (languageOutput demoEnv l).1,
        n.title = translatedName demoEnv l code ∧ n.language = some code)) :=
  ⟨rfl, c7_language_map_translation demoEnv c7res rfl⟩

/-- The demo English collection scrape result, for the C8 witness. -/
def c8res : ScrapeResult := okOr (scrape_english_collection demoEnv)

/-- Witness for C8 on the demo English collection (its excluded section is
dropped; the retained section keeps its key, in order). -/
theorem c8_excluded_sections_witness :
    scrape_english_collection demoEnv = Except.ok c8res ∧
    (EXCLUDED_TOPIC_IDS = [262354, 261412] ∧
    c8res.children.map ContentNode.sourceId =
      (demoEnv.englishSections.filter notExcluded).map PageSection.section_key) :=
  ⟨rfl, c8_excluded_sections demoEnv c8res rfl⟩

/-- A second concrete image list for the C9 witness. -/
def c9images : List ImageDict :=
  [ { url := "https://cdn.example/other-a.png", caption := none },
    { url := "https://cdn.example/other-b.png", caption := some "B" } ]

/-- First PDF-mode run for the C9 witness. -/
def c9r1 : SlideshowResult :=
  okOrSlideshow (create_slideshow pdfEnv [demoImage] "sid-9" "T1" "English")

/-- Second PDF-mode run with the same `source_id` but different images,
title and language, for the C9 witness. -/
def c9r2 : SlideshowResult :=
  okOrSlideshow (create_slideshow pdfEnv c9images "sid-9" "T2" "Spanish")

/-- Witness for C9: two runs sharing only `source_id` target one file. -/
theorem c9_pdf_path_deterministic_witness :
    pdfEnv.slidesMode = false ∧
    create_slideshow pdfEnv [demoImage] "sid-9" "T1" "English" = Except.ok c9r1 ∧
    create_slideshow pdfEnv c9images "sid-9" "T2" "Spanish" = Except.ok c9r2 ∧
    (pdfPath pdfEnv "sid-9" =
        DOCUMENT_DOWNLOAD_DIR ++ PATH_SEP ++ pdfEnv.md5hex "sid-9" ++ ".pdf" ∧
    documentPaths c9r1.node = [pdfPath pdfEnv "sid-9"] ∧
    documentPaths c9r2.node = [pdfPath pdfEnv "sid-9"]) :=
  ⟨rfl, rfl, rfl,
   c9_pdf_path_deterministic pdfEnv "sid-9" [demoImage] c9images "T1" "T2"
     "English" "Spanish" c9r1 c9r2 rfl rfl rfl⟩

end StanfordDigitalMedic
